import Mathlib

/-!
Verification of the lincride route-matching engine and connection gateway.

The Python source works on IEEE floats; numbers are embedded as `ℚ`. The
transcendental library primitives used by `haversine_distance`
(`math.sin`, `math.cos`, `math.sqrt`, `math.atan2`, `math.radians`) are
abstracted as a `MathPrims` parameter, so `haversine_distance` below is the
literal formula from `DistanceService.haversine_distance` applied to those
primitives. `polyline.decode` is a third-party library call; it is abstracted
as a function `String → Option (List (ℚ × ℚ))`, with `none` standing for a
raised exception.
-/

namespace Lincride

/-- Abstraction of the transcendental primitives of the `math` module. -/
structure MathPrims where
  sin : ℚ → ℚ
  cos : ℚ → ℚ
  sqrt : ℚ → ℚ
  atan2 : ℚ → ℚ → ℚ
  radians : ℚ → ℚ

/-- `RoutePoint` from `trips/services/distance.py`. -/
structure RoutePoint where
  latitude : ℚ
  longitude : ℚ
  distance_from_start : ℚ
  deriving DecidableEq

/-- `NearestPointResult` from `trips/services/distance.py`. -/
structure NearestPointResult where
  point : RoutePoint
  distance_to_point : ℚ
  route_index : ℕ
  deriving DecidableEq

/-- `DistanceService.EARTH_RADIUS_METERS`. -/
def EARTH_RADIUS_METERS : ℚ := 6371000

/-- `DistanceService.haversine_distance`: the Haversine formula, verbatim from
the source, over the abstracted `math` primitives. -/
def haversine_distance (P : MathPrims) (lat1 lon1 lat2 lon2 : ℚ) : ℚ :=
  let lat1_rad := P.radians lat1
  let lat2_rad := P.radians lat2
  let delta_lat := P.radians (lat2 - lat1)
  let delta_lon := P.radians (lon2 - lon1)
  let a := (P.sin (delta_lat / 2)) ^ 2 +
    P.cos lat1_rad * P.cos lat2_rad * (P.sin (delta_lon / 2)) ^ 2
  let c := 2 * P.atan2 (P.sqrt a) (P.sqrt (1 - a))
  EARTH_RADIUS_METERS * c

/-- Haversine distance between two route points given as pairs; the segment
distance used by the cumulative-distance and route-distance loops. -/
def seg_dist (P : MathPrims) (a b : ℚ × ℚ) : ℚ :=
  haversine_distance P a.1 a.2 b.1 b.2

/-- The cumulative-distance loop of `find_nearest_point_on_route`: given the
previous point and the cumulative distance so far, produce the list of
cumulative distances of the remaining points (`cumulative_distance +=
segment_distance; distances_from_start.append(cumulative_distance)`). -/
def cum_distances (P : MathPrims) (prev : ℚ × ℚ) (acc : ℚ) :
    List (ℚ × ℚ) → List ℚ
  | [] => []
  | p :: rest =>
    let d := acc + haversine_distance P prev.1 prev.2 p.1 p.2
    d :: cum_distances P p d rest

/-- `distances_from_start` as computed by `find_nearest_point_on_route`:
initialised to `[0.0]`, then one cumulative entry per further route point. -/
def distances_from_start (P : MathPrims) : List (ℚ × ℚ) → List ℚ
  | [] => [0]
  | p :: rest => 0 :: cum_distances P p 0 rest

/-- The distance computed inside the scan loop of
`find_nearest_point_on_route`:
`cls.haversine_distance(query_lat, query_lon, lat, lon)`. -/
def query_dist (P : MathPrims) (query_lat query_lon : ℚ) (p : ℚ × ℚ) : ℚ :=
  haversine_distance P query_lat query_lon p.1 p.2

/-- The nearest-point scan of `find_nearest_point_on_route`. `best`/`bidx`
hold `min_distance`/`nearest_index`; `i` is the index of the head of the
remaining list. The update uses the strict `distance < min_distance` of the
source, so the first index attaining the minimum is kept. -/
def nearest_scan (hv : ℚ × ℚ → ℚ) :
    List (ℚ × ℚ) → ℕ → ℚ → ℕ → ℚ × ℕ
  | [], _, best, bidx => (best, bidx)
  | p :: rest, i, best, bidx =>
    if hv p < best then nearest_scan hv rest (i + 1) (hv p) i
    else nearest_scan hv rest (i + 1) best bidx

/-- `DistanceService.find_nearest_point_on_route`. The source initialises
`min_distance = float('inf')`, so the first loop iteration always replaces
it; this is embedded by starting the scan at the head point with index 0. -/
def find_nearest_point_on_route (P : MathPrims) (query_lat query_lon : ℚ)
    (route_points : List (ℚ × ℚ)) : Option NearestPointResult :=
  match route_points with
  | [] => none
  | p0 :: rest =>
    let dfs := distances_from_start P (p0 :: rest)
    let hv := query_dist P query_lat query_lon
    let best := nearest_scan hv rest 1 (hv p0) 0
    let nearest := (p0 :: rest).getD best.2 (0, 0)
    some { point := { latitude := nearest.1, longitude := nearest.2,
                      distance_from_start := dfs.getD best.2 0 },
           distance_to_point := best.1,
           route_index := best.2 }

/-- The accumulation loop of `calculate_route_distance_between_points`
(`for i in range(i, end_index): total += haversine(points[i], points[i+1])`). -/
def route_dist_loop (P : MathPrims) (route_points : List (ℚ × ℚ))
    (end_index : ℕ) (i : ℕ) (total : ℚ) : ℚ :=
  if i < end_index then
    let p := route_points.getD i (0, 0)
    let q := route_points.getD (i + 1) (0, 0)
    route_dist_loop P route_points end_index (i + 1)
      (total + haversine_distance P p.1 p.2 q.1 q.2)
  else total
termination_by end_index - i

/-- `DistanceService.calculate_route_distance_between_points`. -/
def calculate_route_distance_between_points (P : MathPrims)
    (route_points : List (ℚ × ℚ)) (start_index end_index : ℕ) : ℚ :=
  if end_index ≤ start_index then 0
  else route_dist_loop P route_points end_index start_index 0

/-- `DistanceService.calculate_eta_minutes`. -/
def calculate_eta_minutes (distance_meters : ℚ) (speed_kmh : ℚ) : ℚ :=
  if speed_kmh ≤ 0 then 0
  else
    let speed_mpm := speed_kmh * 1000 / 60
    distance_meters / speed_mpm

/-- The fields of a `Trip` record read by `RouteMatchingService`. -/
structure Trip where
  id : ℤ
  is_ride_requests_allowed : Bool
  available_seats : ℤ
  route_geometry : String
  deriving DecidableEq

/-- `MatchedTrip` from `trips/services/matching.py`. -/
structure MatchedTrip where
  trip_id : ℤ
  pickup_latitude : ℚ
  pickup_longitude : ℚ
  dropoff_latitude : ℚ
  dropoff_longitude : ℚ
  pickup_distance_meters : ℚ
  dropoff_distance_meters : ℚ
  rider_trip_distance_meters : ℚ
  available_seats : ℤ
  estimated_arrival_minutes : ℚ
  deriving DecidableEq

/-- Python `round(x, 2)`. Python rounds ties to even; the tie case is hit
only at exact multiples of 1/200 and no claim depends on it, so Mathlib
`round` (ties up) stands in. -/
def round2 (x : ℚ) : ℚ := ((round (x * 100) : ℤ) : ℚ) / 100

/-- The environment of `RouteMatchingService`: the abstracted `math`
primitives, the third-party `polyline.decode` (returning `none` for a raised
exception), and the `radius_meters` / `average_speed_kmh` settings fixed in
`__init__`. -/
structure MatchingEnv where
  P : MathPrims
  decode : String → Option (List (ℚ × ℚ))
  radius_meters : ℚ
  average_speed_kmh : ℚ

/-- `RouteMatchingService._evaluate_trip`: the guard cascade of the source,
in source order, returning `none` at the first failing check. A decode
exception is `env.decode _ = none`. -/
def evaluate_trip (env : MatchingEnv) (trip : Trip)
    (rider_start_lat rider_start_lon rider_dest_lat rider_dest_lon : ℚ)
    (seats_required : ℤ) : Option MatchedTrip :=
  if !trip.is_ride_requests_allowed then none
  else if trip.available_seats < seats_required then none
  else if trip.route_geometry = "" then none
  else
    match env.decode trip.route_geometry with
    | none => none
    | some route_points =>
      if route_points = [] then none
      else
        match find_nearest_point_on_route env.P rider_start_lat
            rider_start_lon route_points with
        | none => none
        | some pickup_result =>
          if pickup_result.distance_to_point > env.radius_meters then none
          else
            match find_nearest_point_on_route env.P rider_dest_lat
                rider_dest_lon route_points with
            | none => none
            | some dropoff_result =>
              if dropoff_result.distance_to_point > env.radius_meters then
                none
              else if dropoff_result.route_index ≤ pickup_result.route_index
                then none
              else
                let rider_trip_distance :=
                  calculate_route_distance_between_points env.P route_points
                    pickup_result.route_index dropoff_result.route_index
                let eta_minutes := calculate_eta_minutes
                  pickup_result.point.distance_from_start
                  env.average_speed_kmh
                some { trip_id := trip.id,
                       pickup_latitude := pickup_result.point.latitude,
                       pickup_longitude := pickup_result.point.longitude,
                       dropoff_latitude := dropoff_result.point.latitude,
                       dropoff_longitude := dropoff_result.point.longitude,
                       pickup_distance_meters :=
                         pickup_result.distance_to_point,
                       dropoff_distance_meters :=
                         dropoff_result.distance_to_point,
                       rider_trip_distance_meters := rider_trip_distance,
                       available_seats := trip.available_seats,
                       estimated_arrival_minutes := round2 eta_minutes }

/-- `RouteMatchingService.find_matches`: the accumulation loop over the
trips, appending each successful evaluation in iteration order. -/
def find_matches (env : MatchingEnv) (trips : List Trip)
    (rider_start_lat rider_start_lon rider_dest_lat rider_dest_lon : ℚ)
    (seats_required : ℤ) : List MatchedTrip :=
  trips.foldl
    (fun ms trip =>
      match evaluate_trip env trip rider_start_lat rider_start_lon
          rider_dest_lat rider_dest_lon seats_required with
      | some m => ms ++ [m]
      | none => ms)
    []

/-- Inbound `data` payload of a gateway message; absent JSON keys are `none`
(`data.get(...)`). -/
structure MsgData where
  trip_id : Option ℤ
  latitude : Option ℚ
  longitude : Option ℚ
  timestamp : Option ℤ
  deriving DecidableEq

/-- An inbound JSON message: `content.get('type')` and
`content.get('data', dict())`. -/
structure InMessage where
  type : Option String
  data : MsgData
  deriving DecidableEq

/-- Outbound JSON messages of `TripLocationConsumer` (the `type` tag and the
fields of `data`). -/
inductive OutMessage where
  | error (message : String)
  | location_published (trip_id : ℤ)
  | subscribed (trip_id : ℤ)
  | unsubscribed (trip_id : ℤ)
  deriving DecidableEq

/-- The dict published to Kafka by `_handle_publish_location`. -/
structure LocationUpdate where
  trip_id : ℤ
  latitude : ℚ
  longitude : ℚ
  timestamp : Option ℤ
  deriving DecidableEq

/-- Per-connection consumer state: the `subscribed_trips` set, kept as a
duplicate-free list. -/
structure GatewayState where
  subscribed_trips : List ℤ
  deriving DecidableEq

/-- External collaborators of the consumer: the `Trip.objects.filter(...)
.exists()` predicate and whether `kafka_producer.publish_location` succeeds
(`false` models a raised exception, caught by the handler). -/
structure GatewayEnv where
  trip_exists : ℤ → Bool
  kafka_ok : Bool

/-- The observable outcome of one `receive_json` call: the new state, the
`send_json` replies in order, the channel-layer `group_add` / `group_discard`
calls, the Kafka publishes, and whether the connection was closed. -/
structure RecvResult where
  st : GatewayState
  sent : List OutMessage
  group_adds : List String
  group_discards : List String
  kafka_published : List LocationUpdate
  closed : Bool
  deriving DecidableEq

/-- Python truthiness of an optional integer (`None` and `0` are falsy),
as used by `if not trip_id` and `all([trip_id, ...])`. -/
def truthyInt : Option ℤ → Bool
  | none => false
  | some n => n != 0

/-- Python `str` of the optional `message_type`, as interpolated by the
f-string of the unknown-type error reply. -/
def pyStr : Option String → String
  | none => "None"
  | some s => s

/-- `TripLocationConsumer._get_group_name`. -/
def get_group_name (trip_id : ℤ) : String :=
  "trip_location_" ++ toString trip_id

/-- Python `set.add` on the duplicate-free list model. -/
def setAdd (l : List ℤ) (x : ℤ) : List ℤ :=
  if x ∈ l then l else l ++ [x]

/-- Python `set.discard` on the duplicate-free list model. -/
def setDiscard (l : List ℤ) (x : ℤ) : List ℤ :=
  l.filter (fun y => y ≠ x)

/-- `TripLocationConsumer._handle_publish_location`. -/
def handle_publish_location (env : GatewayEnv) (st : GatewayState)
    (data : MsgData) : RecvResult :=
  if !(truthyInt data.trip_id && (data.latitude != none)
      && (data.longitude != none)) then
    { st := st,
      sent := [OutMessage.error
        "Missing required fields: trip_id, latitude, longitude"],
      group_adds := [], group_discards := [], kafka_published := [],
      closed := false }
  else
    match data.trip_id, data.latitude, data.longitude with
    | some tid, some lat, some lon =>
      if !env.trip_exists tid then
        { st := st,
          sent := [OutMessage.error
            ("Trip " ++ toString tid ++ " not found")],
          group_adds := [], group_discards := [], kafka_published := [],
          closed := false }
      else if env.kafka_ok then
        { st := st,
          sent := [OutMessage.location_published tid],
          group_adds := [], group_discards := [],
          kafka_published := [{ trip_id := tid, latitude := lat,
                                longitude := lon,
                                timestamp := data.timestamp }],
          closed := false }
      else
        { st := st,
          sent := [OutMessage.error "Failed to publish location update"],
          group_adds := [], group_discards := [], kafka_published := [],
          closed := false }
    | _, _, _ =>
      { st := st,
        sent := [OutMessage.error
          "Missing required fields: trip_id, latitude, longitude"],
        group_adds := [], group_discards := [], kafka_published := [],
        closed := false }

/-- `TripLocationConsumer._handle_subscribe`. -/
def handle_subscribe (env : GatewayEnv) (st : GatewayState)
    (data : MsgData) : RecvResult :=
  if !truthyInt data.trip_id then
    { st := st, sent := [OutMessage.error "Missing trip_id"],
      group_adds := [], group_discards := [], kafka_published := [],
      closed := false }
  else
    match data.trip_id with
    | some tid =>
      if !env.trip_exists tid then
        { st := st,
          sent := [OutMessage.error
            ("Trip " ++ toString tid ++ " not found")],
          group_adds := [], group_discards := [], kafka_published := [],
          closed := false }
      else
        { st := { subscribed_trips := setAdd st.subscribed_trips tid },
          sent := [OutMessage.subscribed tid],
          group_adds := [get_group_name tid], group_discards := [],
          kafka_published := [], closed := false }
    | none =>
      { st := st, sent := [OutMessage.error "Missing trip_id"],
        group_adds := [], group_discards := [], kafka_published := [],
        closed := false }

/-- `TripLocationConsumer._handle_unsubscribe`, inlining
`_unsubscribe_from_trip` (which acts only when the trip is in the local
subscribed set). -/
def handle_unsubscribe (_env : GatewayEnv) (st : GatewayState)
    (data : MsgData) : RecvResult :=
  if !truthyInt data.trip_id then
    { st := st, sent := [OutMessage.error "Missing trip_id"],
      group_adds := [], group_discards := [], kafka_published := [],
      closed := false }
  else
    match data.trip_id with
    | some tid =>
      if tid ∈ st.subscribed_trips then
        { st := { subscribed_trips := setDiscard st.subscribed_trips tid },
          sent := [OutMessage.unsubscribed tid],
          group_adds := [], group_discards := [get_group_name tid],
          kafka_published := [], closed := false }
      else
        { st := st, sent := [OutMessage.unsubscribed tid],
          group_adds := [], group_discards := [], kafka_published := [],
          closed := false }
    | none =>
      { st := st, sent := [OutMessage.error "Missing trip_id"],
        group_adds := [], group_discards := [], kafka_published := [],
        closed := false }

/-- `TripLocationConsumer.receive_json`: dispatch on the `type` tag through
the handlers dict; any other tag gets the unknown-message-type error reply
and nothing else happens. -/
def receive_json (env : GatewayEnv) (st : GatewayState)
    (content : InMessage) : RecvResult :=
  if content.type = some "PUBLISH_LOCATION" then
    handle_publish_location env st content.data
  else if content.type = some "SUBSCRIBE_TO_TRIP_LOCATION" then
    handle_subscribe env st content.data
  else if content.type = some "UNSUBSCRIBE_FROM_TRIP_LOCATION" then
    handle_unsubscribe env st content.data
  else
    { st := st,
      sent := [OutMessage.error
        ("Unknown message type: " ++ pyStr content.type)],
      group_adds := [], group_discards := [], kafka_published := [],
      closed := false }

/-- A concrete instantiation of the `math` primitives, used to evaluate the
development on concrete inputs. It satisfies the two facts assumed of the
real primitives: `sqrt` is nonnegative-valued and `atan2 y x` is
nonnegative for `y ≥ 0`. Under it the haversine formula collapses to
`796375 * (lat2 - lat1) ^ 4`. -/
def simpleMathPrims : MathPrims :=
  { sin := id, cos := fun _ => 0, sqrt := fun x => x * x,
    atan2 := fun y _ => y, radians := id }

/-- A concrete stand-in for `polyline.decode`, decoding one known geometry
string and raising (returning `none`) on every other. -/
def witnessDecode : String → Option (List (ℚ × ℚ)) :=
  fun s => if s = "route" then some [(0, 0), (1, 0), (2, 0)] else none

/-- A concrete matching environment for evaluating the matcher. -/
def witnessEnv : MatchingEnv :=
  { P := simpleMathPrims, decode := witnessDecode,
    radius_meters := 100, average_speed_kmh := 30 }

/-- A concrete eligible trip whose geometry decodes. -/
def witnessTrip : Trip :=
  { id := 7, is_ride_requests_allowed := true, available_seats := 4,
    route_geometry := "route" }

/-- A concrete trip whose geometry fails to decode. -/
def witnessTripBadGeom : Trip :=
  { id := 8, is_ride_requests_allowed := true, available_seats := 4,
    route_geometry := "garbage" }

/-- A concrete gateway environment. -/
def witnessGatewayEnv : GatewayEnv :=
  { trip_exists := fun _ => true, kafka_ok := true }

/-! Helper lemmas. -/

/-- Invariant of the nearest-point scan: the final value is a lower bound of
the running `best` and of every scanned value; it is either the unchanged
initial pair, or it is attained at some scanned position whose index is
reported, strictly improves on the initial `best`, and strictly undercuts
every earlier scanned value (the strict `<` update keeps the first index
attaining the minimum). -/
theorem nearest_scan_spec (hv : ℚ × ℚ → ℚ) (l : List (ℚ × ℚ)) :
    ∀ (i : ℕ) (best : ℚ) (bidx : ℕ),
    (nearest_scan hv l i best bidx).1 ≤ best ∧
    (∀ k, k < l.length →
      (nearest_scan hv l i best bidx).1 ≤ hv (l.getD k (0, 0))) ∧
    (((nearest_scan hv l i best bidx).1 = best ∧
      (nearest_scan hv l i best bidx).2 = bidx) ∨
     (∃ k, k < l.length ∧ (nearest_scan hv l i best bidx).2 = i + k ∧
       (nearest_scan hv l i best bidx).1 = hv (l.getD k (0, 0)) ∧
       (nearest_scan hv l i best bidx).1 < best ∧
       (∀ j, j < k →
         (nearest_scan hv l i best bidx).1 < hv (l.getD j (0, 0))))) := by
  induction l with
  | nil =>
    intro i best bidx
    refine ⟨le_refl _, ?_, Or.inl ⟨rfl, rfl⟩⟩
    intro k hk
    simp at hk
  | cons p rest ih =>
    intro i best bidx
    by_cases h : hv p < best
    · have hs : nearest_scan hv (p :: rest) i best bidx =
          nearest_scan hv rest (i + 1) (hv p) i := by
        simp only [nearest_scan]
        rw [if_pos h]
      obtain ⟨h1, h2, h3⟩ := ih (i + 1) (hv p) i
      rw [hs]
      refine ⟨h1.trans h.le, ?_, ?_⟩
      · intro k hk
        cases k with
        | zero => simpa using h1
        | succ k =>
          rw [List.getD_cons_succ]
          exact h2 k (by simpa using hk)
      · right
        rcases h3 with ⟨hval, hidx⟩ | ⟨k, hk, hidx, hval, hlt, hfirst⟩
        · refine ⟨0, by simp, by omega, ?_, ?_, ?_⟩
          · rw [List.getD_cons_zero]
            exact hval
          · rw [hval]
            exact h
          · intro j hj
            exact absurd hj (Nat.not_lt_zero j)
        · refine ⟨k + 1, by simpa using hk, by omega, ?_, hlt.trans h, ?_⟩
          · rw [List.getD_cons_succ]
            exact hval
          · intro j hj
            cases j with
            | zero =>
              rw [List.getD_cons_zero]
              exact hlt
            | succ j =>
              rw [List.getD_cons_succ]
              exact hfirst j (by omega)
    · have hs : nearest_scan hv (p :: rest) i best bidx =
          nearest_scan hv rest (i + 1) best bidx := by
        simp only [nearest_scan]
        rw [if_neg h]
      have hbp : best ≤ hv p := not_lt.mp h
      obtain ⟨h1, h2, h3⟩ := ih (i + 1) best bidx
      rw [hs]
      refine ⟨h1, ?_, ?_⟩
      · intro k hk
        cases k with
        | zero =>
          rw [List.getD_cons_zero]
          exact h1.trans hbp
        | succ k =>
          rw [List.getD_cons_succ]
          exact h2 k (by simpa using hk)
      · rcases h3 with ⟨hval, hidx⟩ | ⟨k, hk, hidx, hval, hlt, hfirst⟩
        · exact Or.inl ⟨hval, hidx⟩
        · refine Or.inr ⟨k + 1, by simpa using hk, by omega, ?_,
            hlt, ?_⟩
          · rw [List.getD_cons_succ]
            exact hval
          · intro j hj
            cases j with
            | zero =>
              rw [List.getD_cons_zero]
              exact lt_of_lt_of_le hlt hbp
            | succ j =>
              rw [List.getD_cons_succ]
              exact hfirst j (by omega)

/-- On the empty route the nearest-point search returns `none`. -/
theorem find_nearest_nil (P : MathPrims) (qlat qlon : ℚ) :
    find_nearest_point_on_route P qlat qlon [] = none := rfl

/-- On a non-empty route the nearest-point search returns a result. -/
theorem find_nearest_ne_nil (P : MathPrims) (qlat qlon : ℚ)
    (pts : List (ℚ × ℚ)) (h : pts ≠ []) :
    ∃ r, find_nearest_point_on_route P qlat qlon pts = some r := by
  cases pts with
  | nil => exact absurd rfl h
  | cons p0 rest => exact ⟨_, rfl⟩

/-- Full characterisation of a successful nearest-point search: the index is
in range, the returned point carries the coordinates and cumulative distance
at that index, the reported distance is the query distance to that point, it
is a lower bound of the query distance to every route point, and every
earlier route point is strictly farther (first-index tie-breaking). -/
theorem find_nearest_some_spec (P : MathPrims) (qlat qlon : ℚ)
    (pts : List (ℚ × ℚ)) (r : NearestPointResult)
    (h : find_nearest_point_on_route P qlat qlon pts = some r) :
    r.route_index < pts.length ∧
    r.point.latitude = (pts.getD r.route_index (0, 0)).1 ∧
    r.point.longitude = (pts.getD r.route_index (0, 0)).2 ∧
    r.point.distance_from_start =
      (distances_from_start P pts).getD r.route_index 0 ∧
    r.distance_to_point = query_dist P qlat qlon (pts.getD r.route_index (0, 0)) ∧
    (∀ k, k < pts.length →
      r.distance_to_point ≤ query_dist P qlat qlon (pts.getD k (0, 0))) ∧
    (∀ j, j < r.route_index →
      r.distance_to_point < query_dist P qlat qlon (pts.getD j (0, 0))) := by
  cases pts with
  | nil => exact Option.noConfusion h
  | cons p0 rest =>
    simp only [find_nearest_point_on_route] at h
    obtain rfl : _ = r := Option.some.inj h
    obtain ⟨h1, h2, h3⟩ := nearest_scan_spec (query_dist P qlat qlon) rest 1
      (query_dist P qlat qlon p0) 0
    rcases h3 with ⟨hval, hidx⟩ | ⟨k, hk, hidx, hval, hlt, hfirst⟩
    · refine ⟨?_, rfl, rfl, rfl, ?_, ?_, ?_⟩
      · rw [hidx]
        simp
      · show _ = query_dist P qlat qlon ((p0 :: rest).getD _ (0, 0))
        rw [hidx, List.getD_cons_zero]
        exact hval
      · intro k hk
        cases k with
        | zero =>
          rw [List.getD_cons_zero, hval]
        | succ k =>
          rw [List.getD_cons_succ]
          exact h2 k (by simpa using hk)
      · intro j hj
        rw [hidx] at hj
        exact absurd hj (Nat.not_lt_zero j)
    · refine ⟨?_, rfl, rfl, rfl, ?_, ?_, ?_⟩
      · rw [hidx]
        simp only [List.length_cons]
        omega
      · show _ = query_dist P qlat qlon ((p0 :: rest).getD _ (0, 0))
        rw [hidx]
        have : 1 + k = k + 1 := by omega
        rw [this, List.getD_cons_succ]
        exact hval
      · intro j hj
        cases j with
        | zero =>
          rw [List.getD_cons_zero]
          exact h1
        | succ j =>
          rw [List.getD_cons_succ]
          exact h2 j (by simpa using hj)
      · intro j hj
        rw [hidx] at hj
        have hj2 : j < 1 + k := hj
        cases j with
        | zero =>
          rw [List.getD_cons_zero]
          exact hlt
        | succ j =>
          rw [List.getD_cons_succ]
          exact hfirst j (by omega)

/-- `math.sqrt` never returns a negative value and `math.atan2 y x` is in
`[0, pi]` for `y ≥ 0`; under these two facts about the primitives the
Haversine formula is nonnegative. -/
theorem haversine_nonneg (P : MathPrims)
    (hsq : ∀ x, 0 ≤ P.sqrt x)
    (hat : ∀ y x, 0 ≤ y → 0 ≤ P.atan2 y x)
    (lat1 lon1 lat2 lon2 : ℚ) :
    0 ≤ haversine_distance P lat1 lon1 lat2 lon2 := by
  rw [haversine_distance]
  have h1 : 0 ≤ P.atan2 (P.sqrt ((P.sin (P.radians (lat2 - lat1) / 2)) ^ 2 +
      P.cos (P.radians lat1) * P.cos (P.radians lat2) *
        (P.sin (P.radians (lon2 - lon1) / 2)) ^ 2))
      (P.sqrt (1 - ((P.sin (P.radians (lat2 - lat1) / 2)) ^ 2 +
        P.cos (P.radians lat1) * P.cos (P.radians lat2) *
          (P.sin (P.radians (lon2 - lon1) / 2)) ^ 2))) :=
    hat _ _ (hsq _)
  have h2 : (0 : ℚ) ≤ EARTH_RADIUS_METERS := by
    rw [EARTH_RADIUS_METERS]
    norm_num
  exact mul_nonneg h2 (by linarith)

/-- `cum_distances` has one entry per remaining route point. -/
theorem cum_distances_length (P : MathPrims) (l : List (ℚ × ℚ)) :
    ∀ (prev : ℚ × ℚ) (acc : ℚ),
    (cum_distances P prev acc l).length = l.length := by
  induction l with
  | nil => intro prev acc; rfl
  | cons p rest ih =>
    intro prev acc
    simp only [cum_distances, List.length_cons]
    rw [ih]

/-- The first entry of `cum_distances` over a non-empty remainder is the
accumulator plus the next segment distance. -/
theorem cum_distances_getD_zero (P : MathPrims) (l : List (ℚ × ℚ))
    (prev : ℚ × ℚ) (acc : ℚ) (h : 0 < l.length) :
    (cum_distances P prev acc l).getD 0 0 =
      acc + haversine_distance P prev.1 prev.2 (l.getD 0 (0, 0)).1
        (l.getD 0 (0, 0)).2 := by
  cases l with
  | nil => simp at h
  | cons p rest => rfl

/-- Step equation of `cum_distances`: each entry is the previous entry plus
the haversine distance of the connecting segment. -/
theorem cum_distances_getD_succ (P : MathPrims) (l : List (ℚ × ℚ)) :
    ∀ (prev : ℚ × ℚ) (acc : ℚ) (i : ℕ), i + 1 < l.length →
    (cum_distances P prev acc l).getD (i + 1) 0 =
      (cum_distances P prev acc l).getD i 0 +
      haversine_distance P (l.getD i (0, 0)).1 (l.getD i (0, 0)).2
        (l.getD (i + 1) (0, 0)).1 (l.getD (i + 1) (0, 0)).2 := by
  induction l with
  | nil => intro prev acc i h; simp at h
  | cons p rest ih =>
    intro prev acc i h
    cases i with
    | zero =>
      have hr : 0 < rest.length := by
        simp only [List.length_cons] at h
        omega
      simp only [cum_distances, List.getD_cons_succ, List.getD_cons_zero]
      rw [cum_distances_getD_zero P rest p _ hr]
    | succ i =>
      have hr : i + 1 < rest.length := by
        simp only [List.length_cons] at h
        omega
      simp only [cum_distances, List.getD_cons_succ]
      exact ih p _ i hr

/-- `distances_from_start` of a non-empty route has one entry per point. -/
theorem distances_from_start_length (P : MathPrims) (pts : List (ℚ × ℚ))
    (h : pts ≠ []) :
    (distances_from_start P pts).length = pts.length := by
  cases pts with
  | nil => exact absurd rfl h
  | cons p rest =>
    simp only [distances_from_start, List.length_cons]
    rw [cum_distances_length]

/-- `distances_from_start` begins at 0. -/
theorem distances_from_start_getD_zero (P : MathPrims)
    (pts : List (ℚ × ℚ)) :
    (distances_from_start P pts).getD 0 0 = 0 := by
  cases pts with
  | nil => rfl
  | cons p rest => rfl

/-- Step equation of `distances_from_start`: entry `i + 1` is entry `i` plus
the haversine distance of segment `i → i + 1`. -/
theorem distances_from_start_getD_succ (P : MathPrims)
    (pts : List (ℚ × ℚ)) (i : ℕ) (h : i + 1 < pts.length) :
    (distances_from_start P pts).getD (i + 1) 0 =
      (distances_from_start P pts).getD i 0 +
      seg_dist P (pts.getD i (0, 0)) (pts.getD (i + 1) (0, 0)) := by
  cases pts with
  | nil => simp at h
  | cons p rest =>
    cases i with
    | zero =>
      have hr : 0 < rest.length := by
        simp only [List.length_cons] at h
        omega
      simp only [distances_from_start, List.getD_cons_succ,
        List.getD_cons_zero, seg_dist]
      rw [cum_distances_getD_zero P rest p 0 hr]
    | succ i =>
      have hr : i + 1 < rest.length := by
        simp only [List.length_cons] at h
        omega
      simp only [distances_from_start, List.getD_cons_succ, seg_dist]
      exact cum_distances_getD_succ P rest p 0 i hr

/-- The accumulation loop of the route distance equals its accumulator plus
the sum of the consecutive-segment distances over the remaining range. -/
theorem route_dist_loop_eq_sum (P : MathPrims) (pts : List (ℚ × ℚ))
    (e : ℕ) :
    ∀ (n i : ℕ) (total : ℚ), e - i = n →
    route_dist_loop P pts e i total =
      total + ∑ k ∈ Finset.range n,
        seg_dist P (pts.getD (i + k) (0, 0)) (pts.getD (i + k + 1) (0, 0)) := by
  intro n
  induction n with
  | zero =>
    intro i total hn
    rw [route_dist_loop]
    rw [if_neg (by omega)]
    simp
  | succ n ih =>
    intro i total hn
    rw [route_dist_loop]
    rw [if_pos (by omega)]
    rw [ih (i + 1) _ (by omega)]
    rw [Finset.sum_range_succ']
    have harg : ∀ k : ℕ,
        seg_dist P (pts.getD (i + (k + 1)) (0, 0))
          (pts.getD (i + (k + 1) + 1) (0, 0)) =
        seg_dist P (pts.getD (i + 1 + k) (0, 0))
          (pts.getD (i + 1 + k + 1) (0, 0)) := by
      intro k
      have h1 : i + (k + 1) = i + 1 + k := by omega
      rw [h1]
    rw [Finset.sum_congr rfl (fun k _ => harg k)]
    simp only [seg_dist, Nat.add_zero]
    ring

/-- The accumulation loop of `find_matches` is a filter-map: folding the
per-trip evaluation over the trips extends the accumulator with the
successful evaluations in iteration order. -/
theorem foldl_append_filterMap (g : Trip → Option MatchedTrip) :
    ∀ (trips : List Trip) (acc : List MatchedTrip),
    trips.foldl (fun ms trip =>
      match g trip with
      | some m => ms ++ [m]
      | none => ms) acc = acc ++ trips.filterMap g := by
  intro trips
  induction trips with
  | nil => intro acc; simp
  | cons t ts ih =>
    intro acc
    rw [List.foldl_cons]
    cases hg : g t with
    | none =>
      simp only [hg]
      rw [ih, List.filterMap_cons_none hg]
    | some m =>
      simp only [hg]
      rw [ih, List.filterMap_cons_some hg, List.append_assoc,
        List.singleton_append]

/-! Claim theorems. -/

/-- C3: `find_nearest_point_on_route` returns none exactly on the empty
route; on a non-empty route it returns a result whose distance is the
minimum haversine distance to the query point over all route points, whose
index is the smallest index attaining that minimum, and whose point carries
the coordinates at that index. -/
theorem find_nearest_point_spec (P : MathPrims) (qlat qlon : ℚ)
    (pts : List (ℚ × ℚ)) :
    (pts = [] → find_nearest_point_on_route P qlat qlon pts = none) ∧
    (pts ≠ [] → ∃ r, find_nearest_point_on_route P qlat qlon pts = some r ∧
      r.route_index < pts.length ∧
      r.distance_to_point =
        query_dist P qlat qlon (pts.getD r.route_index (0, 0)) ∧
      (∀ k, k < pts.length →
        r.distance_to_point ≤ query_dist P qlat qlon (pts.getD k (0, 0))) ∧
      (∀ j, j < r.route_index →
        r.distance_to_point < query_dist P qlat qlon (pts.getD j (0, 0))) ∧
      r.point.latitude = (pts.getD r.route_index (0, 0)).1 ∧
      r.point.longitude = (pts.getD r.route_index (0, 0)).2) := by
  constructor
  · intro h
    subst h
    rfl
  · intro h
    obtain ⟨r, hr⟩ := find_nearest_ne_nil P qlat qlon pts h
    obtain ⟨h1, h2, h3, _, h5, h6, h7⟩ :=
      find_nearest_some_spec P qlat qlon pts r hr
    exact ⟨r, hr, h1, h5, h6, h7, h2, h3⟩

/-- Witness for C3 at a concrete route. -/
theorem find_nearest_point_spec_witness :
    ∃ r, find_nearest_point_on_route simpleMathPrims 1 0
        [(0, 0), (1, 0)] = some r ∧
      r.route_index < (2 : ℕ) ∧
      r.distance_to_point =
        query_dist simpleMathPrims 1 0
          ([((0 : ℚ), (0 : ℚ)), (1, 0)].getD r.route_index (0, 0)) ∧
      (∀ k, k < (2 : ℕ) →
        r.distance_to_point ≤ query_dist simpleMathPrims 1 0
          ([((0 : ℚ), (0 : ℚ)), (1, 0)].getD k (0, 0))) ∧
      (∀ j, j < r.route_index →
        r.distance_to_point < query_dist simpleMathPrims 1 0
          ([((0 : ℚ), (0 : ℚ)), (1, 0)].getD j (0, 0))) ∧
      r.point.latitude = ([((0 : ℚ), (0 : ℚ)), (1, 0)].getD r.route_index (0, 0)).1 ∧
      r.point.longitude = ([((0 : ℚ), (0 : ℚ)), (1, 0)].getD r.route_index (0, 0)).2 :=
  (find_nearest_point_spec simpleMathPrims 1 0 [(0, 0), (1, 0)]).2
    (by simp)

/-- C4: under the two facts assumed of the `math` primitives (`sqrt`
nonnegative-valued, `atan2 y x` nonnegative for `y ≥ 0`, which make the
haversine formula nonnegative), the cumulative `distances_from_start`
sequence of a non-empty route starts at 0 and is non-decreasing, each entry
being the previous entry plus the segment's haversine distance; and the
`distance_from_start` reported by a nearest-point result is the cumulative
distance at its route index. -/
theorem distances_from_start_spec (P : MathPrims)
    (hsq : ∀ x, 0 ≤ P.sqrt x)
    (hat : ∀ y x, 0 ≤ y → 0 ≤ P.atan2 y x)
    (qlat qlon : ℚ) (pts : List (ℚ × ℚ)) (hne : pts ≠ []) :
    (distances_from_start P pts).length = pts.length ∧
    (distances_from_start P pts).getD 0 0 = 0 ∧
    (∀ i, i + 1 < pts.length →
      (distances_from_start P pts).getD (i + 1) 0 =
        (distances_from_start P pts).getD i 0 +
        seg_dist P (pts.getD i (0, 0)) (pts.getD (i + 1) (0, 0))) ∧
    (∀ i, i + 1 < pts.length →
      (distances_from_start P pts).getD i 0 ≤
        (distances_from_start P pts).getD (i + 1) 0) ∧
    (∀ r, find_nearest_point_on_route P qlat qlon pts = some r →
      r.point.distance_from_start =
        (distances_from_start P pts).getD r.route_index 0) := by
  refine ⟨distances_from_start_length P pts hne,
    distances_from_start_getD_zero P pts, ?_, ?_, ?_⟩
  · intro i h
    exact distances_from_start_getD_succ P pts i h
  · intro i h
    rw [distances_from_start_getD_succ P pts i h]
    have := haversine_nonneg P hsq hat (pts.getD i (0, 0)).1
      (pts.getD i (0, 0)).2 (pts.getD (i + 1) (0, 0)).1
      (pts.getD (i + 1) (0, 0)).2
    rw [seg_dist]
    linarith
  · intro r hr
    exact (find_nearest_some_spec P qlat qlon pts r hr).2.2.2.1

/-- Witness for C4 at a concrete route. -/
theorem distances_from_start_spec_witness :
    (distances_from_start simpleMathPrims [(0, 0), (1, 0)]).length =
      [((0 : ℚ), (0 : ℚ)), (1, 0)].length ∧
    (distances_from_start simpleMathPrims [(0, 0), (1, 0)]).getD 0 0 = 0 ∧
    (∀ i, i + 1 < [((0 : ℚ), (0 : ℚ)), (1, 0)].length →
      (distances_from_start simpleMathPrims [(0, 0), (1, 0)]).getD (i + 1) 0 =
        (distances_from_start simpleMathPrims [(0, 0), (1, 0)]).getD i 0 +
        seg_dist simpleMathPrims ([((0 : ℚ), (0 : ℚ)), (1, 0)].getD i (0, 0))
          ([((0 : ℚ), (0 : ℚ)), (1, 0)].getD (i + 1) (0, 0))) ∧
    (∀ i, i + 1 < [((0 : ℚ), (0 : ℚ)), (1, 0)].length →
      (distances_from_start simpleMathPrims [(0, 0), (1, 0)]).getD i 0 ≤
        (distances_from_start simpleMathPrims [(0, 0), (1, 0)]).getD (i + 1) 0) ∧
    (∀ r, find_nearest_point_on_route simpleMathPrims 1 0
        [(0, 0), (1, 0)] = some r →
      r.point.distance_from_start =
        (distances_from_start simpleMathPrims
          [(0, 0), (1, 0)]).getD r.route_index 0) :=
  distances_from_start_spec simpleMathPrims
    (fun x => mul_self_nonneg x) (fun y _ hy => hy) 1 0 [(0, 0), (1, 0)]
    (by simp)

/-- C5: `calculate_route_distance_between_points` returns 0 whenever
`start_index ≥ end_index` (equal indices included), and otherwise returns
the sum of the consecutive-segment haversine distances from `start_index`
through `end_index`. -/
theorem route_distance_between_points_spec (P : MathPrims)
    (pts : List (ℚ × ℚ)) (s e : ℕ)
    (hs : s < pts.length) (he : e < pts.length) :
    (e ≤ s → calculate_route_distance_between_points P pts s e = 0) ∧
    (s < e → calculate_route_distance_between_points P pts s e =
      ∑ k ∈ Finset.range (e - s),
        seg_dist P (pts.getD (s + k) (0, 0)) (pts.getD (s + k + 1) (0, 0))) := by
  constructor
  · intro h
    rw [calculate_route_distance_between_points, if_pos h]
  · intro h
    rw [calculate_route_distance_between_points, if_neg (by omega)]
    rw [route_dist_loop_eq_sum P pts e (e - s) s 0 rfl]
    rw [zero_add]

/-- Witness for C5 at a concrete route and index pair. -/
theorem route_distance_between_points_spec_witness :
    ((1 : ℕ) ≤ 0 → calculate_route_distance_between_points simpleMathPrims
      [(0, 0), (1, 0)] 0 1 = 0) ∧
    ((0 : ℕ) < 1 → calculate_route_distance_between_points simpleMathPrims
      [(0, 0), (1, 0)] 0 1 =
      ∑ k ∈ Finset.range (1 - 0),
        seg_dist simpleMathPrims ([((0 : ℚ), (0 : ℚ)), (1, 0)].getD (0 + k) (0, 0))
          ([((0 : ℚ), (0 : ℚ)), (1, 0)].getD (0 + k + 1) (0, 0))) :=
  route_distance_between_points_spec simpleMathPrims [(0, 0), (1, 0)] 0 1
    (by simp) (by simp)

/-- C6: `calculate_eta_minutes` is total; it returns 0 for every
non-positive speed, returns `distance / (speed * 1000 / 60)` for every
positive speed, and in particular maps 30 km over 30 km/h to 60 minutes. -/
theorem calculate_eta_spec (d s : ℚ) :
    (s ≤ 0 → calculate_eta_minutes d s = 0) ∧
    (0 < s → calculate_eta_minutes d s = d / (s * 1000 / 60)) ∧
    calculate_eta_minutes 30000 30 = 60 := by
  refine ⟨?_, ?_, ?_⟩
  · intro h
    rw [calculate_eta_minutes, if_pos h]
  · intro h
    rw [calculate_eta_minutes, if_neg (by linarith)]
  · rw [calculate_eta_minutes, if_neg (by norm_num)]
    norm_num

/-- Witness for C6 at a positive concrete speed. -/
theorem calculate_eta_spec_witness :
    (0 : ℚ) < 30 ∧ calculate_eta_minutes 30000 30 = 30000 / (30 * 1000 / 60) :=
  ⟨by norm_num, (calculate_eta_spec 30000 30).2.1 (by norm_num)⟩

/-- C8: `find_matches` is exactly the filter-map of the per-trip evaluation
over the input trips, so output matches appear in input iteration order,
once per matching trip, with no reordering. -/
theorem find_matches_filterMap (env : MatchingEnv) (trips : List Trip)
    (rsl rso rdl rdo : ℚ) (seats_required : ℤ) :
    find_matches env trips rsl rso rdl rdo seats_required =
      trips.filterMap
        (fun t => evaluate_trip env t rsl rso rdl rdo seats_required) := by
  rw [find_matches]
  exact (foldl_append_filterMap _ trips []).trans (List.nil_append _)

/-- C1: the per-trip evaluation produces a match exactly when the trip is
eligible, has enough seats, has a non-empty geometry that decodes to a
non-empty route, both rider points have nearest route points within the
radius, and the dropoff index is strictly after the pickup index; the
cascade returns no match at the first failing check. -/
theorem evaluate_trip_match_conditions (env : MatchingEnv) (trip : Trip)
    (rsl rso rdl rdo : ℚ) (seats_required : ℤ) :
    (∃ m, evaluate_trip env trip rsl rso rdl rdo seats_required = some m) ↔
    (trip.is_ride_requests_allowed = true ∧
     seats_required ≤ trip.available_seats ∧
     trip.route_geometry ≠ "" ∧
     ∃ pts, env.decode trip.route_geometry = some pts ∧ pts ≠ [] ∧
       ∃ pr, find_nearest_point_on_route env.P rsl rso pts = some pr ∧
         pr.distance_to_point ≤ env.radius_meters ∧
         ∃ dr, find_nearest_point_on_route env.P rdl rdo pts = some dr ∧
           dr.distance_to_point ≤ env.radius_meters ∧
           pr.route_index < dr.route_index) := by
  constructor
  · rintro ⟨m, hm⟩
    rw [evaluate_trip] at hm
    cases h1 : trip.is_ride_requests_allowed with
    | false => rw [h1] at hm; simp at hm
    | true =>
      rw [h1] at hm
      simp only [Bool.not_true, Bool.false_eq_true, if_false] at hm
      by_cases h2 : trip.available_seats < seats_required
      · rw [if_pos h2] at hm; exact Option.noConfusion hm
      rw [if_neg h2] at hm
      by_cases h3 : trip.route_geometry = ""
      · rw [if_pos h3] at hm; exact Option.noConfusion hm
      rw [if_neg h3] at hm
      cases hdec : env.decode trip.route_geometry with
      | none => rw [hdec] at hm; exact Option.noConfusion hm
      | some pts =>
        rw [hdec] at hm
        simp only at hm
        by_cases h4 : pts = []
        · rw [if_pos h4] at hm; exact Option.noConfusion hm
        rw [if_neg h4] at hm
        cases hpr : find_nearest_point_on_route env.P rsl rso pts with
        | none => rw [hpr] at hm; exact Option.noConfusion hm
        | some pr =>
          rw [hpr] at hm
          simp only at hm
          by_cases h5 : pr.distance_to_point > env.radius_meters
          · rw [if_pos h5] at hm; exact Option.noConfusion hm
          rw [if_neg h5] at hm
          cases hdr : find_nearest_point_on_route env.P rdl rdo pts with
          | none => rw [hdr] at hm; exact Option.noConfusion hm
          | some dr =>
            rw [hdr] at hm
            simp only at hm
            by_cases h6 : dr.distance_to_point > env.radius_meters
            · rw [if_pos h6] at hm; exact Option.noConfusion hm
            rw [if_neg h6] at hm
            by_cases h7 : dr.route_index ≤ pr.route_index
            · rw [if_pos h7] at hm; exact Option.noConfusion hm
            rw [if_neg h7] at hm
            exact ⟨rfl, by omega, h3, pts, rfl, h4, pr, hpr,
              not_lt.mp h5, dr, hdr, not_lt.mp h6, by omega⟩
  · rintro ⟨h1, h2, h3, pts, hdec, h4, pr, hpr, h5, dr, hdr, h6, h7⟩
    rw [evaluate_trip, h1]
    simp only [Bool.not_true, Bool.false_eq_true, if_false]
    rw [if_neg (not_lt.mpr h2), if_neg h3, hdec]
    simp only
    rw [if_neg h4, hpr]
    simp only
    rw [if_neg (not_lt.mpr h5), hdr]
    simp only
    rw [if_neg (not_lt.mpr h6), if_neg (not_le.mpr h7)]
    exact ⟨_, rfl⟩

/-- C2: even when both rider points have nearest route points within the
radius, the trip is not a match whenever the nearest dropoff index is less
than or equal to the nearest pickup index. -/
theorem dropoff_not_after_pickup_no_match (env : MatchingEnv) (trip : Trip)
    (rsl rso rdl rdo : ℚ) (seats_required : ℤ) (pts : List (ℚ × ℚ))
    (pr dr : NearestPointResult)
    (hdec : env.decode trip.route_geometry = some pts)
    (hpr : find_nearest_point_on_route env.P rsl rso pts = some pr)
    (hdr : find_nearest_point_on_route env.P rdl rdo pts = some dr)
    (hprr : pr.distance_to_point ≤ env.radius_meters)
    (hdrr : dr.distance_to_point ≤ env.radius_meters)
    (hle : dr.route_index ≤ pr.route_index) :
    evaluate_trip env trip rsl rso rdl rdo seats_required = none := by
  rw [evaluate_trip]
  cases h1 : trip.is_ride_requests_allowed with
  | false => simp
  | true =>
    simp only [Bool.not_true, Bool.false_eq_true, if_false]
    by_cases h2 : trip.available_seats < seats_required
    · rw [if_pos h2]
    rw [if_neg h2]
    by_cases h3 : trip.route_geometry = ""
    · rw [if_pos h3]
    rw [if_neg h3, hdec]
    simp only
    by_cases h4 : pts = []
    · rw [if_pos h4]
    rw [if_neg h4, hpr]
    simp only
    by_cases h5 : pr.distance_to_point > env.radius_meters
    · rw [if_pos h5]
    rw [if_neg h5, hdr]
    simp only
    by_cases h6 : dr.distance_to_point > env.radius_meters
    · rw [if_pos h6]
    rw [if_neg h6, if_pos hle]

/-- Witness for C2: on a concrete route the rider going against the route
direction (nearest pickup vertex at index 2, nearest dropoff vertex at
index 0, both at distance 0) is not matched. -/
theorem dropoff_not_after_pickup_no_match_witness :
    evaluate_trip witnessEnv witnessTrip 2 0 0 0 1 = none :=
  dropoff_not_after_pickup_no_match witnessEnv witnessTrip 2 0 0 0 1
    [(0, 0), (1, 0), (2, 0)]
    { point := { latitude := 2, longitude := 0,
                 distance_from_start := 1592750 },
      distance_to_point := 0, route_index := 2 }
    { point := { latitude := 0, longitude := 0, distance_from_start := 0 },
      distance_to_point := 0, route_index := 0 }
    (by norm_num [witnessEnv, witnessDecode, witnessTrip])
    (by norm_num [witnessEnv, find_nearest_point_on_route, nearest_scan,
      distances_from_start, cum_distances, query_dist, haversine_distance,
      simpleMathPrims, EARTH_RADIUS_METERS, List.getD])
    (by norm_num [witnessEnv, find_nearest_point_on_route, nearest_scan,
      distances_from_start, cum_distances, query_dist, haversine_distance,
      simpleMathPrims, EARTH_RADIUS_METERS, List.getD])
    (by norm_num [witnessEnv]) (by norm_num [witnessEnv]) (by norm_num)

/-- C7: a trip whose geometry is empty or fails to decode evaluates to no
match, and `find_matches` simply skips it, proceeding over the remaining
trips with no error surfaced. -/
theorem decode_failure_no_match (env : MatchingEnv) (trip : Trip)
    (rsl rso rdl rdo : ℚ) (seats_required : ℤ)
    (h : trip.route_geometry = "" ∨
      env.decode trip.route_geometry = none) :
    evaluate_trip env trip rsl rso rdl rdo seats_required = none ∧
    ∀ rest, find_matches env (trip :: rest) rsl rso rdl rdo seats_required =
      find_matches env rest rsl rso rdl rdo seats_required := by
  have heval :
      evaluate_trip env trip rsl rso rdl rdo seats_required = none := by
    rw [evaluate_trip]
    cases h1 : trip.is_ride_requests_allowed with
    | false => simp
    | true =>
      simp only [Bool.not_true, Bool.false_eq_true, if_false]
      by_cases h2 : trip.available_seats < seats_required
      · rw [if_pos h2]
      · rw [if_neg h2]
        rcases h with h3 | h3
        · rw [if_pos h3]
        · by_cases hg : trip.route_geometry = ""
          · rw [if_pos hg]
          · rw [if_neg hg, h3]
  refine ⟨heval, ?_⟩
  intro rest
  rw [find_matches, find_matches, List.foldl_cons]
  simp only [heval]

/-- Witness for C7 at a concrete trip whose geometry does not decode. -/
theorem decode_failure_no_match_witness :
    evaluate_trip witnessEnv witnessTripBadGeom 0 0 2 0 1 = none ∧
    find_matches witnessEnv [witnessTripBadGeom] 0 0 2 0 1 =
      find_matches witnessEnv [] 0 0 2 0 1 := by
  have h := decode_failure_no_match witnessEnv witnessTripBadGeom 0 0 2 0 1
    (Or.inr rfl)
  exact ⟨h.1, h.2 []⟩

/-- C10: every emitted `MatchedTrip` carries, as pickup and dropoff
coordinates, the decoded route vertices at the matched indices, and, as
pickup and dropoff distances, the haversine distances from the rider's
query points to those vertices. -/
theorem matched_trip_uses_route_vertices (env : MatchingEnv) (trip : Trip)
    (rsl rso rdl rdo : ℚ) (seats_required : ℤ) (m : MatchedTrip)
    (hm : evaluate_trip env trip rsl rso rdl rdo seats_required = some m) :
    ∃ pts, env.decode trip.route_geometry = some pts ∧
    ∃ pr dr,
      find_nearest_point_on_route env.P rsl rso pts = some pr ∧
      find_nearest_point_on_route env.P rdl rdo pts = some dr ∧
      pr.route_index < pts.length ∧ dr.route_index < pts.length ∧
      m.pickup_latitude = (pts.getD pr.route_index (0, 0)).1 ∧
      m.pickup_longitude = (pts.getD pr.route_index (0, 0)).2 ∧
      m.dropoff_latitude = (pts.getD dr.route_index (0, 0)).1 ∧
      m.dropoff_longitude = (pts.getD dr.route_index (0, 0)).2 ∧
      m.pickup_distance_meters =
        query_dist env.P rsl rso (pts.getD pr.route_index (0, 0)) ∧
      m.dropoff_distance_meters =
        query_dist env.P rdl rdo (pts.getD dr.route_index (0, 0)) := by
  rw [evaluate_trip] at hm
  cases h1 : trip.is_ride_requests_allowed with
  | false => rw [h1] at hm; simp at hm
  | true =>
    rw [h1] at hm
    simp only [Bool.not_true, Bool.false_eq_true, if_false] at hm
    by_cases h2 : trip.available_seats < seats_required
    · rw [if_pos h2] at hm; exact Option.noConfusion hm
    rw [if_neg h2] at hm
    by_cases h3 : trip.route_geometry = ""
    · rw [if_pos h3] at hm; exact Option.noConfusion hm
    rw [if_neg h3] at hm
    cases hdec : env.decode trip.route_geometry with
    | none => rw [hdec] at hm; exact Option.noConfusion hm
    | some pts =>
      rw [hdec] at hm
      simp only at hm
      by_cases h4 : pts = []
      · rw [if_pos h4] at hm; exact Option.noConfusion hm
      rw [if_neg h4] at hm
      cases hpr : find_nearest_point_on_route env.P rsl rso pts with
      | none => rw [hpr] at hm; exact Option.noConfusion hm
      | some pr =>
        rw [hpr] at hm
        simp only at hm
        by_cases h5 : pr.distance_to_point > env.radius_meters
        · rw [if_pos h5] at hm; exact Option.noConfusion hm
        rw [if_neg h5] at hm
        cases hdr : find_nearest_point_on_route env.P rdl rdo pts with
        | none => rw [hdr] at hm; exact Option.noConfusion hm
        | some dr =>
          rw [hdr] at hm
          simp only at hm
          by_cases h6 : dr.distance_to_point > env.radius_meters
          · rw [if_pos h6] at hm; exact Option.noConfusion hm
          rw [if_neg h6] at hm
          by_cases h7 : dr.route_index ≤ pr.route_index
          · rw [if_pos h7] at hm; exact Option.noConfusion hm
          rw [if_neg h7] at hm
          obtain rfl : _ = m := Option.some.inj hm
          obtain ⟨hprl, hprlat, hprlon, _, hprd, _, _⟩ :=
            find_nearest_some_spec env.P rsl rso pts pr hpr
          obtain ⟨hdrl, hdrlat, hdrlon, _, hdrd, _, _⟩ :=
            find_nearest_some_spec env.P rdl rdo pts dr hdr
          exact ⟨pts, rfl, pr, dr, hpr, hdr, hprl, hdrl,
            hprlat, hprlon, hdrlat, hdrlon, hprd, hdrd⟩

/-- Witness for C10: a concrete matched trip whose emitted coordinates are
the route vertices at indices 0 and 2, not the rider's query coordinates. -/
theorem matched_trip_uses_route_vertices_witness :
    ∃ pts, witnessEnv.decode witnessTrip.route_geometry = some pts ∧
    ∃ pr dr,
      find_nearest_point_on_route witnessEnv.P 0 0 pts = some pr ∧
      find_nearest_point_on_route witnessEnv.P 2 0 pts = some dr ∧
      pr.route_index < pts.length ∧ dr.route_index < pts.length ∧
      (0 : ℚ) = (pts.getD pr.route_index (0, 0)).1 ∧
      (0 : ℚ) = (pts.getD pr.route_index (0, 0)).2 ∧
      (2 : ℚ) = (pts.getD dr.route_index (0, 0)).1 ∧
      (0 : ℚ) = (pts.getD dr.route_index (0, 0)).2 ∧
      (0 : ℚ) = query_dist witnessEnv.P 0 0 (pts.getD pr.route_index (0, 0)) ∧
      (0 : ℚ) = query_dist witnessEnv.P 2 0 (pts.getD dr.route_index (0, 0)) :=
  matched_trip_uses_route_vertices witnessEnv witnessTrip 0 0 2 0 1
    { trip_id := 7, pickup_latitude := 0, pickup_longitude := 0,
      dropoff_latitude := 2, dropoff_longitude := 0,
      pickup_distance_meters := 0, dropoff_distance_meters := 0,
      rider_trip_distance_meters := 1592750, available_seats := 4,
      estimated_arrival_minutes := 0 }
    (by
      have hpr : find_nearest_point_on_route simpleMathPrims 0 0
          [(0, 0), (1, 0), (2, 0)] = some
          { point := { latitude := 0, longitude := 0,
                       distance_from_start := 0 },
            distance_to_point := 0, route_index := 0 } := by
        norm_num [find_nearest_point_on_route, nearest_scan,
          distances_from_start, cum_distances, query_dist,
          haversine_distance, simpleMathPrims, EARTH_RADIUS_METERS,
          List.getD]
      have hdr : find_nearest_point_on_route simpleMathPrims 2 0
          [(0, 0), (1, 0), (2, 0)] = some
          { point := { latitude := 2, longitude := 0,
                       distance_from_start := 1592750 },
            distance_to_point := 0, route_index := 2 } := by
        norm_num [find_nearest_point_on_route, nearest_scan,
          distances_from_start, cum_distances, query_dist,
          haversine_distance, simpleMathPrims, EARTH_RADIUS_METERS,
          List.getD]
      rw [evaluate_trip]
      rw [if_neg (by simp [witnessTrip])]
      rw [if_neg (by norm_num [witnessTrip])]
      rw [if_neg (by simp [witnessTrip])]
      rw [show witnessEnv.decode witnessTrip.route_geometry =
        some [(0, 0), (1, 0), (2, 0)] from rfl]
      simp only
      rw [if_neg (by simp)]
      rw [show witnessEnv.P = simpleMathPrims from rfl, hpr]
      simp only
      rw [if_neg (by norm_num [witnessEnv])]
      rw [hdr]
      simp only
      rw [if_neg (by norm_num [witnessEnv])]
      rw [if_neg (by norm_num)]
      have hrd : calculate_route_distance_between_points simpleMathPrims
          [0, (1, 0), (2, 0)] 0 2 = 1592750 := by
        rw [calculate_route_distance_between_points, if_neg (by norm_num)]
        rw [route_dist_loop_eq_sum simpleMathPrims
          [0, (1, 0), (2, 0)] 2 2 0 0 rfl]
        rw [Finset.sum_range_succ, Finset.sum_range_one]
        norm_num [seg_dist, haversine_distance, simpleMathPrims,
          EARTH_RADIUS_METERS, List.getD, Prod.fst_zero, Prod.snd_zero]
      have heta : calculate_eta_minutes 0 30 = 0 := by
        norm_num [calculate_eta_minutes]
      norm_num [witnessTrip, witnessEnv, hrd, heta, round2])

/-- C9: any inbound message whose type tag is not one of the three known
tags gets an ERROR reply naming the unknown type, with no state change, no
group or Kafka side effect, and no connection close. -/
theorem unknown_message_type_error (env : GatewayEnv) (st : GatewayState)
    (content : InMessage)
    (h1 : content.type ≠ some "PUBLISH_LOCATION")
    (h2 : content.type ≠ some "SUBSCRIBE_TO_TRIP_LOCATION")
    (h3 : content.type ≠ some "UNSUBSCRIBE_FROM_TRIP_LOCATION") :
    receive_json env st content =
      { st := st,
        sent := [OutMessage.error
          ("Unknown message type: " ++ pyStr content.type)],
        group_adds := [], group_discards := [], kafka_published := [],
        closed := false } := by
  rw [receive_json, if_neg h1, if_neg h2, if_neg h3]

/-- Witness for C9 at a concrete unknown message type. -/
theorem unknown_message_type_error_witness :
    receive_json witnessGatewayEnv { subscribed_trips := [5] }
      { type := some "FOO",
        data := { trip_id := none, latitude := none, longitude := none,
                  timestamp := none } } =
      { st := { subscribed_trips := [5] },
        sent := [OutMessage.error "Unknown message type: FOO"],
        group_adds := [], group_discards := [], kafka_published := [],
        closed := false } :=
  unknown_message_type_error witnessGatewayEnv { subscribed_trips := [5] }
    { type := some "FOO",
      data := { trip_id := none, latitude := none, longitude := none,
                timestamp := none } }
    (by simp) (by simp) (by simp)

end Lincride
